import Mathlib

/-!
Verification development for the ExoManager MCP client
(scripts/exo_mcp_client.py).

The development shallowly embeds the message ingestion and dispatch
pipeline of the client:

  raw bytes -> frame decoder -> message parser -> type router/handlers
            -> aggregate state (counters, bounded performance history).

Byte streams are modelled as lists of characters (for valid UTF-8 input,
splitting on the newline byte coincides with splitting on the newline
character, since no multi-byte UTF-8 sequence contains the byte 0x0A).
JSON values are modelled by the inductive type JVal; the outcome of the
external stdlib call json.loads is supplied as an input of each frame
(field parsed of Frame), since the JSON grammar itself is not code of
this repository.
-/

set_option autoImplicit false

namespace ExoMCP

/-! ## Frame decoder (receive_messages, lines 59-80)

The decoder keeps a byte buffer; on each received chunk it appends the
chunk to the buffer and then repeatedly splits the buffer at the first
newline, yielding every complete line whose strip() is non-empty and
leaving the trailing partial line buffered. -/

/-- True for the ASCII whitespace characters stripped by Python
bytes.strip() with no argument. -/
def isPySpace (c : Char) : Bool :=
  c = ' ' || c = '\t' || c = '\n' || c = '\r' || c = '\x0b' || c = '\x0c'

/-- A line is blank when every character is whitespace, i.e. exactly when
Python line.strip() is falsy. -/
def isBlankLine (l : List Char) : Bool :=
  l.all isPySpace

/-- Splitting a buffer at every newline: first component is the list of
complete (newline-terminated) segments in order, second component is the
trailing partial segment. This is what the loop
while newline in buffer: line, buffer = buffer.split(newline, 1)
computes: the yielded lines and the final buffer. -/
def splitSegs : List Char → List (List Char) × List Char
  | [] => ([], [])
  | c :: rest =>
    if c = '\n' then ([] :: (splitSegs rest).1, (splitSegs rest).2)
    else
      match (splitSegs rest).1 with
      | [] => ([], c :: (splitSegs rest).2)
      | s :: ss => ((c :: s) :: ss, (splitSegs rest).2)

/-- State of the incremental frame decoder: the byte buffer and the
frames yielded so far (in order). -/
structure DecoderState where
  buffer : List Char
  yielded : List (List Char)
  deriving DecidableEq

/-- One pass of the decoder (lines 69-75): append the freshly received
chunk to the buffer, extract every complete newline-terminated line, and
yield those lines whose strip() is truthy, keeping the trailing partial
line buffered. -/
def feedChunk (st : DecoderState) (chunk : List Char) : DecoderState :=
  let buf := st.buffer ++ chunk
  let (segs, rem) := splitSegs buf
  { buffer := rem
    yielded := st.yielded ++ segs.filter (fun l => !(isBlankLine l)) }

/-- Run the decoder from the initial (empty) state over a sequence of
received chunks. -/
def feedChunks (chunks : List (List Char)) : DecoderState :=
  chunks.foldl feedChunk { buffer := [], yielded := [] }

/-! ## JSON values and Python-semantics helpers -/

/-- A JSON value as produced by json.loads: null, booleans, numbers
(modelled as rationals; no arithmetic is performed on them by the
client), strings, arrays and objects (association lists of fields). -/
inductive JVal where
  | null
  | bool (b : Bool)
  | num (q : ℚ)
  | str (s : String)
  | arr (elems : List JVal)
  | obj (fields : List (String × JVal))

/-- Python truthiness of a JSON value: None and False are falsy, numbers
are falsy iff zero, strings/arrays/objects are falsy iff empty. -/
def pyTruthy : JVal → Bool
  | JVal.null => false
  | JVal.bool b => b
  | JVal.num q => q != 0
  | JVal.str s => s != ""
  | JVal.arr xs => !xs.isEmpty
  | JVal.obj fs => !fs.isEmpty

/-- ASCII uppercasing of one character (codepoints 97-122 are shifted
down by 32), the fragment of Python str.upper() exercised by the client
(level tags are ASCII). -/
def pyUpperChar (c : Char) : Char :=
  if 97 ≤ c.toNat ∧ c.toNat ≤ 122 then Char.ofNat (c.toNat - 32) else c

/-- Python str.upper() on the ASCII subset. -/
def pyUpper (s : String) : String :=
  ⟨s.data.map pyUpperChar⟩

/-- Python str() shown for the values the client interpolates into
f-strings. Modelled from the spec: only the string case is relied on by
any claim; reprs of the remaining cases (Python stdlib behaviour, not
code of this repository) are abbreviated placeholders. -/
def pyStr (v : JVal) : String :=
  match v with
  | JVal.str s => s
  | JVal.bool b => if b then ("True") else ("False")
  | JVal.null => ("None")
  | JVal.num _ => ("<number>")
  | JVal.arr _ => ("<list>")
  | JVal.obj _ => ("<dict>")

/-- Python ", ".join(capabilities), which succeeds on a list of strings
(or on a string, joining its characters) and raises TypeError otherwise. -/
def pyJoinComma (v : JVal) : Except Unit String :=
  match v with
  | JVal.arr xs =>
    (xs.mapM (fun x =>
      match x with
      | JVal.str s => Except.ok s
      | _ => Except.error ())).map (String.intercalate (", "))
  | JVal.str s => Except.ok (String.intercalate (", ") (s.data.map (fun c => String.mk [c])))
  | _ => Except.error ()

/-! ## Timestamp model (lines 93-101)

The client replaces every Z in the timestamp with +00:00, feeds the
result to datetime.fromisoformat, and renders the parsed instant with
strftime as HH:MM:SS; on any parse failure the raw timestamp is kept. -/

/-- timestamp.replace(Z, +00:00): every occurrence of the character Z is
replaced by the six characters +00:00. -/
def pyReplaceZ (s : String) : String :=
  ⟨(s.data.map (fun c =>
      if c = 'Z' then ['+', '0', '0', ':', '0', '0'] else [c])).flatten⟩

/-- The fields of a parsed datetime that strftime needs. -/
structure PyDateTime where
  year : Nat
  month : Nat
  day : Nat
  hour : Nat
  minute : Nat
  second : Nat
  deriving DecidableEq

/-- Numeric value of an ASCII digit. -/
def digitVal (c : Char) : Nat :=
  c.toNat - '0'.toNat

/-- Consume exactly two ASCII digits. -/
def take2 : List Char → Option (Nat × List Char)
  | a :: b :: rest =>
    if a.isDigit && b.isDigit then some (digitVal a * 10 + digitVal b, rest) else none
  | _ => none

/-- Consume exactly four ASCII digits. -/
def take4 : List Char → Option (Nat × List Char)
  | a :: b :: c :: d :: rest =>
    if a.isDigit && b.isDigit && c.isDigit && d.isDigit then
      some (((digitVal a * 10 + digitVal b) * 10 + digitVal c) * 10 + digitVal d, rest)
    else none
  | _ => none

/-- Consume one expected character. -/
def expectChar (c : Char) : List Char → Option (List Char)
  | x :: rest => if x = c then some rest else none
  | _ => none

/-- Consume a fractional-seconds field of exactly 3 or 6 digits. -/
def parseFrac (l : List Char) : Option (List Char) :=
  let ds := l.takeWhile (fun c => c.isDigit)
  if ds.length = 3 || ds.length = 6 then some (l.drop ds.length) else none

/-- Parse HH[:MM[:SS[.fff or .ffffff]]], returning the three components
(missing ones default to 0) and the unconsumed rest. -/
def parseHMS (l : List Char) : Option (Nat × Nat × Nat × List Char) :=
  match take2 l with
  | none => none
  | some (hh, r1) =>
    match r1 with
    | ':' :: r2 =>
      match take2 r2 with
      | none => none
      | some (mm, r3) =>
        match r3 with
        | ':' :: r4 =>
          match take2 r4 with
          | none => none
          | some (ss, r5) =>
            match r5 with
            | '.' :: r6 =>
              match parseFrac r6 with
              | none => none
              | some r7 => some (hh, mm, ss, r7)
            | _ => some (hh, mm, ss, r5)
        | _ => some (hh, mm, 0, r3)
    | _ => some (hh, 0, 0, r1)

/-- Accept an optional timezone suffix: empty, or a sign followed by
HH:MM[:SS[.ffffff]] (CPython additionally fixes the lengths 5, 8, 15 of
the part after the sign). -/
def parseTz (l : List Char) : Bool :=
  match l with
  | [] => true
  | sign :: r =>
    (sign = '+' || sign = '-') &&
    (r.length = 5 || r.length = 8 || r.length = 15) &&
    (match parseHMS r with
     | some (th, tm, ts, rest) => rest.isEmpty && th ≤ 23 && tm ≤ 59 && ts ≤ 59
     | none => false)

/-- Days in a month of the proleptic Gregorian calendar. -/
def daysInMonth (y m : Nat) : Nat :=
  if m = 2 then
    (if (y % 4 = 0 && y % 100 != 0) || y % 400 = 0 then 29 else 28)
  else if m = 4 || m = 6 || m = 9 || m = 11 then 30 else 31

/-- Modelled from the spec: Python datetime.fromisoformat (stdlib, not
code of this repository), on the grammar
YYYY-MM-DD[sep HH[:MM[:SS[.fff or .ffffff]]][timezone]] with the field
ranges checked by the datetime constructor. Returns none exactly when
fromisoformat raises. -/
def pyFromIso (l : List Char) : Option PyDateTime :=
  match take4 l with
  | none => none
  | some (y, r1) =>
    match expectChar '-' r1 with
    | none => none
    | some r2 =>
      match take2 r2 with
      | none => none
      | some (mo, r3) =>
        match expectChar '-' r3 with
        | none => none
        | some r4 =>
          match take2 r4 with
          | none => none
          | some (d, r5) =>
            let valid := 1 ≤ y && 1 ≤ mo && mo ≤ 12 && 1 ≤ d && d ≤ daysInMonth y mo
            match r5 with
            | [] =>
              if valid then some ⟨y, mo, d, 0, 0, 0⟩ else none
            | _sep :: tr =>
              match parseHMS tr with
              | none => none
              | some (hh, mm, ss, rest) =>
                if valid && hh ≤ 23 && mm ≤ 59 && ss ≤ 59 && parseTz rest then
                  some ⟨y, mo, d, hh, mm, ss⟩
                else none

/-- Zero-padded two-digit rendering of a field. -/
def pad2 (n : Nat) : String :=
  if n < 10 then ("0") ++ toString n else toString n

/-- strftime with format HH:MM:SS. -/
def fmtHMS (dt : PyDateTime) : String :=
  pad2 dt.hour ++ (":") ++ pad2 dt.minute ++ (":") ++ pad2 dt.second

/-- Timestamp normalization of process_message (lines 93-101): a truthy
timestamp is parsed (after replacing Z by +00:00) and rendered HH:MM:SS,
falling back to the raw value on any failure (the bare except also
swallows the AttributeError raised by .replace on a non-string value); a
falsy timestamp (absent, empty, etc.) is replaced by the current local
time, supplied as nowStr. -/
def formatTimestamp (ts : JVal) (nowStr : String) : JVal :=
  if pyTruthy ts then
    match ts with
    | JVal.str s =>
      match pyFromIso (pyReplaceZ s).data with
      | some dt => JVal.str (fmtHMS dt)
      | none => JVal.str s
    | other => other
  else JVal.str nowStr

/-! ## Client state, render events and handlers (lines 15-243)

Only the state-bearing part of the client is modelled (the counters and
the performance history). Console output is modelled as a list of
RenderEvent values carrying the data the corresponding print statements
interpolate; a handler that would raise (e.g. .upper() on a non-string,
or .get on a non-dict payload) returns Except.error, which
process_message's outer except swallows. Exceptions raised by f-string
FORMAT specifiers after all state mutation (e.g. a :.1f applied to a
non-number in the performance gauge) affect output only and are not
modelled. -/

/-- A performance sample (handle_performance_metrics, lines 165-171):
capture instant (time.time(), supplied by the clock) and the four
utilization values read from the payload. -/
structure PerfSample where
  timestamp : ℚ
  cpu : JVal
  memory : JVal
  disk : JVal
  gpu : JVal

/-- The aggregate state of the client (lines 23-31). -/
structure ClientState where
  message_count : Nat
  error_count : Nat
  warning_count : Nat
  info_count : Nat
  performance_history : List PerfSample

/-- The state right after __init__: all counters zero, empty history. -/
def initialState : ClientState :=
  { message_count := 0, error_count := 0, warning_count := 0
    info_count := 0, performance_history := [] }

/-- The external clock of one processing step: datetime.now() rendered
as HH:MM:SS, and time.time(). -/
structure Clock where
  nowStr : String
  nowTime : ℚ

/-- One rendering side effect (print statement) of the pipeline. -/
inductive RenderEvent where
  | parseFailure (preview : String)
  | processingError
  | unknownType (timeStr msgType : JVal)
  | welcomeBanner (timeStr server version : JVal) (capabilities : String)
  | logLine (marker : String) (timeStr : JVal) (level : String) (message : JVal)
  | perfGauge (timeStr cpu memory disk gpu : JVal)
  | perfNet (networkStatus : JVal) (webUp apiUp : Bool)
  | serviceLine (timeStr : JVal) (status : String)
  | errorLine (message : JVal)
  | discoveryLine (timeStr : JVal) (status : String) (nodeCount : JVal)
  | nodeLines (nodes : List JVal)
  | debugLine (marker : String) (timeStr : JVal) (source message : JVal)

/-- handle_welcome (lines 125-133): reads server, version and
capabilities, joins the capability list, mutates nothing. A non-dict
payload or a capability list that ", ".join rejects raises. -/
def handle_welcome (data timeStr : JVal) (st : ClientState) :
    Except Unit (ClientState × List RenderEvent) :=
  match data with
  | JVal.obj fields =>
    let server := (fields.lookup ("server")).getD (JVal.str ("Unknown"))
    let version := (fields.lookup ("version")).getD (JVal.str ("Unknown"))
    let capabilities := (fields.lookup ("capabilities")).getD (JVal.arr [])
    match pyJoinComma capabilities with
    | Except.ok joined =>
      Except.ok (st, [RenderEvent.welcomeBanner timeStr server version joined])
    | Except.error e => Except.error e
  | _ => Except.error ()

/-- handle_log_entry (lines 135-152): uppercases the level (raising on a
non-string), then increments exactly one severity counter: the error
counter if the isError value is truthy or the level is ERROR, else the
warning counter if the level is WARNING, else the info counter. -/
def handle_log_entry (data timeStr source : JVal) (st : ClientState) :
    Except Unit (ClientState × List RenderEvent) :=
  match data with
  | JVal.obj fields =>
    match (fields.lookup ("level")).getD (JVal.str ("UNKNOWN")) with
    | JVal.str lvl =>
      let level := pyUpper lvl
      let message := (fields.lookup ("message")).getD (JVal.str (""))
      let is_error := pyTruthy ((fields.lookup ("isError")).getD (JVal.bool false))
      Except.ok
        (if is_error = true ∨ level = ("ERROR") then
          ({ st with error_count := st.error_count + 1 },
           [RenderEvent.logLine ("❌") timeStr level message])
        else if level = ("WARNING") then
          ({ st with warning_count := st.warning_count + 1 },
           [RenderEvent.logLine ("⚠️") timeStr level message])
        else
          ({ st with info_count := st.info_count + 1 },
           [RenderEvent.logLine ("ℹ️") timeStr level message]))
    | _ => Except.error ()
  | _ => Except.error ()

/-- Lines 173-175: keep only the last 100 entries, evicting the oldest
(pop(0)) when the append pushes the length past 100. -/
def pushSample (history : List PerfSample) (s : PerfSample) : List PerfSample :=
  let h := history ++ [s]
  if h.length > 100 then h.drop 1 else h

/-- handle_performance_metrics (lines 154-182): reads the utilization
values (defaulting to 0.0), appends a sample to the bounded history and
renders the two gauge lines. -/
def handle_performance_metrics (clk : Clock) (data timeStr : JVal) (st : ClientState) :
    Except Unit (ClientState × List RenderEvent) :=
  match data with
  | JVal.obj fields =>
    let cpu := (fields.lookup ("cpu")).getD (JVal.num 0)
    let memory := (fields.lookup ("memory")).getD (JVal.num 0)
    let disk := (fields.lookup ("disk")).getD (JVal.num 0)
    let gpu := (fields.lookup ("gpu")).getD (JVal.num 0)
    let network_status := (fields.lookup ("network_status")).getD (JVal.str ("Unknown"))
    let web_accessible := (fields.lookup ("web_interface_accessible")).getD (JVal.bool false)
    let api_accessible := (fields.lookup ("api_endpoint_accessible")).getD (JVal.bool false)
    let sample : PerfSample :=
      { timestamp := clk.nowTime, cpu := cpu, memory := memory, disk := disk, gpu := gpu }
    Except.ok
      ({ st with performance_history := pushSample st.performance_history sample },
       [RenderEvent.perfGauge timeStr cpu memory disk gpu,
        RenderEvent.perfNet network_status (pyTruthy web_accessible) (pyTruthy api_accessible)])
  | _ => Except.error ()

/-- handle_service_status (lines 184-207): renders a single status line
chosen by the if/elif chain installing, uninstalling, installed
(running/stopped), not installed, appending the progress text to the
installing status when truthy, and appends an error line when last_error
is truthy. Mutates nothing. -/
def handle_service_status (data timeStr : JVal) (st : ClientState) :
    Except Unit (ClientState × List RenderEvent) :=
  match data with
  | JVal.obj fields =>
    let is_installed := pyTruthy ((fields.lookup ("is_installed")).getD (JVal.bool false))
    let is_running := pyTruthy ((fields.lookup ("is_running")).getD (JVal.bool false))
    let is_installing := pyTruthy ((fields.lookup ("is_installing")).getD (JVal.bool false))
    let is_uninstalling := pyTruthy ((fields.lookup ("is_uninstalling")).getD (JVal.bool false))
    let last_error := (fields.lookup ("last_error")).getD (JVal.str (""))
    let progress := (fields.lookup ("installation_progress")).getD (JVal.str (""))
    let status :=
      if is_installing then
        (if pyTruthy progress then ("🔄 Installing - ") ++ pyStr progress
         else ("🔄 Installing"))
      else if is_uninstalling then ("🔄 Uninstalling")
      else if is_installed then (if is_running then ("🟢 Running") else ("🔴 Stopped"))
      else ("⚪ Not Installed")
    Except.ok
      (st, [RenderEvent.serviceLine timeStr status] ++
        (if pyTruthy last_error then [RenderEvent.errorLine last_error] else []))
  | _ => Except.error ()

/-- nodes[-3:]: the last up to three entries of the node list (rendering
detail; slicing a non-list raises only at the output stage). -/
def lastThree (v : JVal) : List JVal :=
  match v with
  | JVal.arr xs => xs.drop (xs.length - 3)
  | _ => []

/-- handle_network_discovery (lines 209-229): renders the discovery
status, an error line when last_error is truthy and the last three nodes
when the node list is truthy. Mutates nothing. -/
def handle_network_discovery (data timeStr : JVal) (st : ClientState) :
    Except Unit (ClientState × List RenderEvent) :=
  match data with
  | JVal.obj fields =>
    let is_discovering := pyTruthy ((fields.lookup ("is_discovering")).getD (JVal.bool false))
    let node_count := (fields.lookup ("discovered_nodes_count")).getD (JVal.num 0)
    let last_error := (fields.lookup ("last_error")).getD (JVal.str (""))
    let nodes := (fields.lookup ("nodes")).getD (JVal.arr [])
    let status := if is_discovering then ("🔍 Scanning") else ("💤 Idle")
    Except.ok
      (st, [RenderEvent.discoveryLine timeStr status node_count] ++
        (if pyTruthy last_error then [RenderEvent.errorLine last_error] else []) ++
        (if pyTruthy nodes then [RenderEvent.nodeLines (lastThree nodes)] else []))
  | _ => Except.error ()

/-- handle_debug_message (lines 231-243): uppercases the level (raising
on a non-string), chooses a marker, renders one line. Mutates nothing. -/
def handle_debug_message (data timeStr source : JVal) (st : ClientState) :
    Except Unit (ClientState × List RenderEvent) :=
  match data with
  | JVal.obj fields =>
    match (fields.lookup ("level")).getD (JVal.str ("DEBUG")) with
    | JVal.str lvl =>
      let level := pyUpper lvl
      let message := (fields.lookup ("message")).getD (JVal.str (""))
      let marker :=
        if level = ("ERROR") then ("❌")
        else if level = ("WARNING") then ("⚠️") else ("🔍")
      Except.ok (st, [RenderEvent.debugLine marker timeStr source message])
    | _ => Except.error ()
  | _ => Except.error ()

/-- One frame handed to process_message: its raw text and the outcome of
json.loads on it. Modelled from the spec: json.loads is stdlib, not code
of this repository, so its outcome (none exactly when the text is not
valid JSON) is an input of the model. -/
structure Frame where
  raw : String
  parsed : Option JVal

/-- The type-tag dispatch of process_message (lines 104-117): a string
tag selects one of the six handlers, any other tag (or a non-string type
value) falls through to the unknown-type line. -/
def dispatchMessage (clk : Clock) (typeVal timeStr sourceVal dataVal : JVal)
    (st1 : ClientState) : Except Unit (ClientState × List RenderEvent) :=
  match typeVal with
  | JVal.str t =>
    if t = ("welcome") then handle_welcome dataVal timeStr st1
    else if t = ("log_entry") then handle_log_entry dataVal timeStr sourceVal st1
    else if t = ("performance_metrics") then
      handle_performance_metrics clk dataVal timeStr st1
    else if t = ("service_status") then handle_service_status dataVal timeStr st1
    else if t = ("network_discovery") then
      handle_network_discovery dataVal timeStr st1
    else if t = ("debug_message") then handle_debug_message dataVal timeStr sourceVal st1
    else Except.ok (st1, [RenderEvent.unknownType timeStr (JVal.str t)])
  | other => Except.ok (st1, [RenderEvent.unknownType timeStr other])

/-- process_message (lines 82-123): on parse failure, report a
diagnostic carrying the first 100 characters of the raw text and change
nothing; on success increment the total counter, extract the envelope
fields with their defaults, normalize the timestamp and dispatch on the
type tag, falling back to an unknown-type line; any exception escaping a
handler (or the envelope extraction on a non-dict message) is caught and
reported, leaving only the total counter incremented. -/
def processMessage (clk : Clock) (st : ClientState) (f : Frame) :
    ClientState × List RenderEvent :=
  match f.parsed with
  | none => (st, [RenderEvent.parseFailure (f.raw.take 100)])
  | some m =>
    let st1 := { st with message_count := st.message_count + 1 }
    match m with
    | JVal.obj fields =>
      let typeVal := (fields.lookup ("type")).getD (JVal.str ("unknown"))
      let tsVal := (fields.lookup ("timestamp")).getD (JVal.str (""))
      let sourceVal := (fields.lookup ("source")).getD (JVal.str ("unknown"))
      let dataVal := (fields.lookup ("data")).getD (JVal.obj [])
      let timeStr := formatTimestamp tsVal clk.nowStr
      match dispatchMessage clk typeVal timeStr sourceVal dataVal st1 with
      | Except.ok r => r
      | Except.error _ => (st1, [RenderEvent.processingError])
    | _ => (st1, [RenderEvent.processingError])

/-- One iteration of the receive loop at the message level: process the
frame, accumulating the rendered output. -/
def stepClient (acc : ClientState × List RenderEvent) (p : Clock × Frame) :
    ClientState × List RenderEvent :=
  ((processMessage p.1 acc.1 p.2).1, acc.2 ++ (processMessage p.1 acc.1 p.2).2)

/-- Process a sequence of frames (each with the clock at its processing
instant) starting from state st, collecting all rendered output. -/
def runMessages (st : ClientState) (inputs : List (Clock × Frame)) :
    ClientState × List RenderEvent :=
  inputs.foldl stepClient (st, [])

/-- The tag a message dispatches on: its type field (defaulting to
unknown) when that is a string. -/
def msgTag (m : JVal) : Option String :=
  match m with
  | JVal.obj fields =>
    match (fields.lookup ("type")).getD (JVal.str ("unknown")) with
    | JVal.str t => some t
    | _ => none
  | _ => none

/-- A well-shaped performance_metrics frame carrying the given payload
fields. -/
def perfFrame (fields : List (String × JVal)) : Frame :=
  { raw := ""
    parsed := some (JVal.obj
      [(("type"), JVal.str ("performance_metrics")), (("data"), JVal.obj fields)]) }

/-- The sample that handle_performance_metrics builds from a payload
given as explicit fields. -/
def sampleFromFields (clk : Clock) (fields : List (String × JVal)) : PerfSample :=
  { timestamp := clk.nowTime
    cpu := (fields.lookup ("cpu")).getD (JVal.num 0)
    memory := (fields.lookup ("memory")).getD (JVal.num 0)
    disk := (fields.lookup ("disk")).getD (JVal.num 0)
    gpu := (fields.lookup ("gpu")).getD (JVal.num 0) }

/-- The status line the spec's priority table prescribes: installing
before uninstalling before installed (running/stopped) before not
installed, with the progress text appended to the installing status when
non-empty. Stated from the spec's words for comparison with
handle_service_status. -/
def claimedServiceStatus (installing uninstalling installed running : Bool)
    (progress : String) : String :=
  if installing then
    (if progress = "" then ("🔄 Installing") else ("🔄 Installing - ") ++ progress)
  else if uninstalling then ("🔄 Uninstalling")
  else if installed then (if running then ("🟢 Running") else ("🔴 Stopped"))
  else ("⚪ Not Installed")

/-- A service_status payload with boolean flags and string error and
progress fields. -/
def svcData (installed running installing uninstalling : Bool)
    (lastErr progress : String) : JVal :=
  JVal.obj
    [(("is_installed"), JVal.bool installed),
     (("is_running"), JVal.bool running),
     (("is_installing"), JVal.bool installing),
     (("is_uninstalling"), JVal.bool uninstalling),
     (("last_error"), JVal.str lastErr),
     (("installation_progress"), JVal.str progress)]

/-- A log_entry payload whose level field is the given string, with
arbitrary further fields. -/
def logPayload (lvl : String) (rest : List (String × JVal)) : JVal :=
  JVal.obj ((("level"), JVal.str lvl) :: rest)

/-- A welcome frame advertising the capabilities logs and metrics. -/
def welcomeFrame : Frame :=
  { raw := ""
    parsed := some (JVal.obj
      [(("type"), JVal.str ("welcome")),
       (("data"), JVal.obj
         [(("capabilities"), JVal.arr [JVal.str ("logs"), JVal.str ("metrics")])])]) }

/-- The clock used in closed examples. -/
def exampleClock : Clock := { nowStr := ("12:00:00"), nowTime := 0 }

/-- The spec's example session: an ERROR log entry, an INFO log entry, a
truncated (unparseable) line and a performance_metrics message. The
parsed components are the json.loads outcomes of the raw texts; the
third text is not valid JSON, so its parse outcome is none. -/
def exampleFrames : List (Clock × Frame) :=
  [(exampleClock,
    { raw := "\x7b\"type\":\"log_entry\",\"data\":\x7b\"level\":\"ERROR\",\"message\":\"disk full\"\x7d\x7d"
      parsed := some (JVal.obj
        [(("type"), JVal.str ("log_entry")),
         (("data"), JVal.obj
           [(("level"), JVal.str ("ERROR")), (("message"), JVal.str ("disk full"))])]) }),
   (exampleClock,
    { raw := "\x7b\"type\":\"log_entry\",\"data\":\x7b\"level\":\"INFO\",\"message\":\"ok\"\x7d\x7d"
      parsed := some (JVal.obj
        [(("type"), JVal.str ("log_entry")),
         (("data"), JVal.obj
           [(("level"), JVal.str ("INFO")), (("message"), JVal.str ("ok"))])]) }),
   (exampleClock,
    { raw := "\x7b\"type\":\"log_entry\""
      parsed := none }),
   (exampleClock,
    { raw := "\x7b\"type\":\"performance_metrics\",\"data\":\x7b\"cpu\":55.2,\"memory\":70.0\x7d\x7d"
      parsed := some (JVal.obj
        [(("type"), JVal.str ("performance_metrics")),
         (("data"), JVal.obj
           [(("cpu"), JVal.num 55.2), (("memory"), JVal.num 70.0)])]) })]

/-! ## Lemmas about the frame decoder -/

theorem splitSegs_cons_nl (rest : List Char) :
    splitSegs ('\n' :: rest) = ([] :: (splitSegs rest).1, (splitSegs rest).2) := by
  simp [splitSegs]

theorem splitSegs_cons_ne (c : Char) (rest : List Char) (hc : ¬c = '\n') :
    splitSegs (c :: rest) =
      match (splitSegs rest).1 with
      | [] => ([], c :: (splitSegs rest).2)
      | s :: ss => ((c :: s) :: ss, (splitSegs rest).2) := by
  simp [splitSegs, hc]

theorem splitSegs_append (xs ys : List Char) :
    splitSegs (xs ++ ys) =
      ((splitSegs xs).1 ++ (splitSegs ((splitSegs xs).2 ++ ys)).1,
       (splitSegs ((splitSegs xs).2 ++ ys)).2) := by
  induction xs with
  | nil => simp [splitSegs]
  | cons c xs ih =>
    by_cases hc : c = '\n'
    · subst hc
      rw [List.cons_append, splitSegs_cons_nl, splitSegs_cons_nl, ih]
      simp
    · rw [List.cons_append, splitSegs_cons_ne c (xs ++ ys) hc, splitSegs_cons_ne c xs hc, ih]
      rcases hA : (splitSegs xs).1 with _ | ⟨s, ss⟩
      · simp only [hA, List.nil_append]
        rw [List.cons_append, splitSegs_cons_ne c ((splitSegs xs).2 ++ ys) hc]
      · simp [hA]

theorem feedChunk_append (st : DecoderState) (a b : List Char) :
    feedChunk (feedChunk st a) b = feedChunk st (a ++ b) := by
  simp only [feedChunk]
  have h := splitSegs_append (st.buffer ++ a) b
  simp only [List.append_assoc] at h
  simp [h, List.filter_append]

theorem foldl_feedChunk (chunks : List (List Char)) (st : DecoderState) (c : List Char) :
    chunks.foldl feedChunk (feedChunk st c) = feedChunk st (c ++ chunks.flatten) := by
  induction chunks generalizing st c with
  | nil => simp
  | cons d ds ih =>
    simp only [List.foldl_cons, feedChunk_append, ih, List.flatten_cons, List.append_assoc]

/-! ## Lemmas about the bounded performance history -/

theorem pushSample_drop (l : List PerfSample) (s : PerfSample) :
    pushSample (l.drop (l.length - 100)) s = (l ++ [s]).drop (l.length + 1 - 100) := by
  unfold pushSample
  by_cases h : l.length ≤ 99
  · have h0 : l.length - 100 = 0 := by omega
    have h1 : l.length + 1 - 100 = 0 := by omega
    rw [h0, h1]
    simp only [List.drop_zero]
    rw [if_neg]
    simp
    omega
  · have hlen : (l.drop (l.length - 100)).length = 100 := by
      simp only [List.length_drop]
      omega
    have hcond : (l.drop (l.length - 100) ++ [s]).length > 100 := by
      simp [hlen]
    rw [if_pos hcond]
    rw [List.drop_append_of_le_length (by omega : 1 ≤ (l.drop (l.length - 100)).length),
        List.drop_drop,
        List.drop_append_of_le_length (by omega : l.length + 1 - 100 ≤ l.length)]
    congr 2
    omega

theorem foldl_pushSample (l : List PerfSample) :
    List.foldl pushSample [] l = l.drop (l.length - 100) := by
  induction l using List.reverseRecOn with
  | nil => simp
  | append_singleton l s ih =>
    rw [List.foldl_append, List.foldl_cons, List.foldl_nil, ih, pushSample_drop]
    simp

/-! ## Lemmas about the message-processing fold -/

theorem foldl_stepClient_events (inputs : List (Clock × Frame)) (st : ClientState)
    (evs : List RenderEvent) :
    List.foldl stepClient (st, evs) inputs =
      ((List.foldl stepClient (st, []) inputs).1,
       evs ++ (List.foldl stepClient (st, []) inputs).2) := by
  induction inputs generalizing st evs with
  | nil => simp
  | cons p ps ih =>
    simp only [List.foldl_cons, stepClient, List.nil_append]
    rw [ih, ih ((processMessage p.1 st p.2).1) ((processMessage p.1 st p.2).2)]
    simp

theorem foldl_stepClient_fst (inputs : List (Clock × Frame)) (st : ClientState)
    (evs : List RenderEvent) :
    (List.foldl stepClient (st, evs) inputs).1 = (runMessages st inputs).1 := by
  rw [runMessages, foldl_stepClient_events]

/-- The state part of processing one well-shaped performance_metrics
frame: the total counter and the history advance, nothing else moves. -/
theorem processMessage_perfFrame_fst (clk : Clock) (st : ClientState)
    (fields : List (String × JVal)) :
    (processMessage clk st (perfFrame fields)).1 =
      { st with
        message_count := st.message_count + 1
        performance_history :=
          pushSample st.performance_history (sampleFromFields clk fields) } := rfl

theorem runMessages_perf_history (inputs : List (Clock × List (String × JVal)))
    (st : ClientState) :
    (runMessages st (inputs.map (fun p => (p.1, perfFrame p.2)))).1.performance_history =
      List.foldl pushSample st.performance_history
        (inputs.map (fun p => sampleFromFields p.1 p.2)) := by
  induction inputs generalizing st with
  | nil => simp [runMessages]
  | cons p ps ih =>
    simp only [List.map_cons, runMessages, List.foldl_cons, stepClient, List.nil_append]
    rw [foldl_stepClient_fst, ih, processMessage_perfFrame_fst]

/-! ## Handlers that succeed leave the state as stated -/

theorem handle_welcome_state (data timeStr : JVal) (st st' : ClientState)
    (evs : List RenderEvent) (h : handle_welcome data timeStr st = Except.ok (st', evs)) :
    st' = st := by
  cases data <;> simp only [handle_welcome] at h <;> try exact Except.noConfusion h
  split at h
  · simp only [Except.ok.injEq, Prod.mk.injEq] at h
    exact h.1.symm
  · exact Except.noConfusion h

theorem handle_service_status_state (data timeStr : JVal) (st st' : ClientState)
    (evs : List RenderEvent)
    (h : handle_service_status data timeStr st = Except.ok (st', evs)) :
    st' = st := by
  cases data <;> simp only [handle_service_status] at h <;> try exact Except.noConfusion h
  simp only [Except.ok.injEq, Prod.mk.injEq] at h
  exact h.1.symm

theorem handle_network_discovery_state (data timeStr : JVal) (st st' : ClientState)
    (evs : List RenderEvent)
    (h : handle_network_discovery data timeStr st = Except.ok (st', evs)) :
    st' = st := by
  cases data <;> simp only [handle_network_discovery] at h <;> try exact Except.noConfusion h
  simp only [Except.ok.injEq, Prod.mk.injEq] at h
  exact h.1.symm

theorem handle_debug_message_state (data timeStr source : JVal) (st st' : ClientState)
    (evs : List RenderEvent)
    (h : handle_debug_message data timeStr source st = Except.ok (st', evs)) :
    st' = st := by
  cases data <;> simp only [handle_debug_message] at h <;> try exact Except.noConfusion h
  split at h <;> try exact Except.noConfusion h
  simp only [Except.ok.injEq, Prod.mk.injEq] at h
  exact h.1.symm

theorem handle_log_entry_message_count (data timeStr source : JVal) (st st' : ClientState)
    (evs : List RenderEvent)
    (h : handle_log_entry data timeStr source st = Except.ok (st', evs)) :
    st'.message_count = st.message_count := by
  cases data <;> simp only [handle_log_entry] at h <;> try exact Except.noConfusion h
  split at h <;> try exact Except.noConfusion h
  simp only [Except.ok.injEq] at h
  split at h
  · injection h with h1 h2
    subst h1
    rfl
  · split at h <;> (injection h with h1 h2; subst h1; rfl)

theorem handle_performance_metrics_counters (clk : Clock) (data timeStr : JVal)
    (st st' : ClientState) (evs : List RenderEvent)
    (h : handle_performance_metrics clk data timeStr st = Except.ok (st', evs)) :
    st'.message_count = st.message_count ∧ st'.error_count = st.error_count ∧
      st'.warning_count = st.warning_count ∧ st'.info_count = st.info_count := by
  cases data <;> simp only [handle_performance_metrics] at h <;>
    try exact Except.noConfusion h
  simp only [Except.ok.injEq, Prod.mk.injEq] at h
  rw [← h.1]
  exact ⟨rfl, rfl, rfl, rfl⟩

theorem dispatchMessage_severity (clk : Clock) (typeVal timeStr sourceVal dataVal : JVal)
    (st1 st' : ClientState) (evs : List RenderEvent)
    (h1 : typeVal ≠ JVal.str ("log_entry"))
    (h2 : typeVal ≠ JVal.str ("debug_message"))
    (hok : dispatchMessage clk typeVal timeStr sourceVal dataVal st1 = Except.ok (st', evs)) :
    st'.message_count = st1.message_count ∧ st'.error_count = st1.error_count ∧
      st'.warning_count = st1.warning_count ∧ st'.info_count = st1.info_count := by
  cases typeVal with
  | str t =>
    have ht1 : ¬t = ("log_entry") := fun hb => h1 (congrArg JVal.str hb)
    have ht2 : ¬t = ("debug_message") := fun hb => h2 (congrArg JVal.str hb)
    simp only [dispatchMessage] at hok
    by_cases hw : t = ("welcome")
    · simp only [if_pos hw] at hok
      rw [handle_welcome_state _ _ _ _ _ hok]
      exact ⟨rfl, rfl, rfl, rfl⟩
    · simp only [if_neg hw, if_neg ht1] at hok
      by_cases hp : t = ("performance_metrics")
      · simp only [if_pos hp] at hok
        exact handle_performance_metrics_counters _ _ _ _ _ _ hok
      · simp only [if_neg hp] at hok
        by_cases hs : t = ("service_status")
        · simp only [if_pos hs] at hok
          rw [handle_service_status_state _ _ _ _ _ hok]
          exact ⟨rfl, rfl, rfl, rfl⟩
        · simp only [if_neg hs] at hok
          by_cases hn : t = ("network_discovery")
          · simp only [if_pos hn] at hok
            rw [handle_network_discovery_state _ _ _ _ _ hok]
            exact ⟨rfl, rfl, rfl, rfl⟩
          · simp only [if_neg hn, if_neg ht2] at hok
            simp only [Except.ok.injEq, Prod.mk.injEq] at hok
            rw [← hok.1]
            exact ⟨rfl, rfl, rfl, rfl⟩
  | null =>
    simp only [dispatchMessage, Except.ok.injEq, Prod.mk.injEq] at hok
    rw [← hok.1]
    exact ⟨rfl, rfl, rfl, rfl⟩
  | bool b =>
    simp only [dispatchMessage, Except.ok.injEq, Prod.mk.injEq] at hok
    rw [← hok.1]
    exact ⟨rfl, rfl, rfl, rfl⟩
  | num q =>
    simp only [dispatchMessage, Except.ok.injEq, Prod.mk.injEq] at hok
    rw [← hok.1]
    exact ⟨rfl, rfl, rfl, rfl⟩
  | arr xs =>
    simp only [dispatchMessage, Except.ok.injEq, Prod.mk.injEq] at hok
    rw [← hok.1]
    exact ⟨rfl, rfl, rfl, rfl⟩
  | obj fs =>
    simp only [dispatchMessage, Except.ok.injEq, Prod.mk.injEq] at hok
    rw [← hok.1]
    exact ⟨rfl, rfl, rfl, rfl⟩

theorem dispatchMessage_message_count (clk : Clock) (typeVal timeStr sourceVal dataVal : JVal)
    (st1 st' : ClientState) (evs : List RenderEvent)
    (hok : dispatchMessage clk typeVal timeStr sourceVal dataVal st1 = Except.ok (st', evs)) :
    st'.message_count = st1.message_count := by
  cases typeVal with
  | str t =>
    simp only [dispatchMessage] at hok
    by_cases hw : t = ("welcome")
    · simp only [if_pos hw] at hok
      rw [handle_welcome_state _ _ _ _ _ hok]
    · simp only [if_neg hw] at hok
      by_cases hl : t = ("log_entry")
      · simp only [if_pos hl] at hok
        exact handle_log_entry_message_count _ _ _ _ _ _ hok
      · simp only [if_neg hl] at hok
        by_cases hp : t = ("performance_metrics")
        · simp only [if_pos hp] at hok
          exact (handle_performance_metrics_counters _ _ _ _ _ _ hok).1
        · simp only [if_neg hp] at hok
          by_cases hs : t = ("service_status")
          · simp only [if_pos hs] at hok
            rw [handle_service_status_state _ _ _ _ _ hok]
          · simp only [if_neg hs] at hok
            by_cases hn : t = ("network_discovery")
            · simp only [if_pos hn] at hok
              rw [handle_network_discovery_state _ _ _ _ _ hok]
            · simp only [if_neg hn] at hok
              by_cases hd : t = ("debug_message")
              · simp only [if_pos hd] at hok
                rw [handle_debug_message_state _ _ _ _ _ _ hok]
              · simp only [if_neg hd, Except.ok.injEq, Prod.mk.injEq] at hok
                rw [← hok.1]
  | null =>
    simp only [dispatchMessage, Except.ok.injEq, Prod.mk.injEq] at hok
    rw [← hok.1]
  | bool b =>
    simp only [dispatchMessage, Except.ok.injEq, Prod.mk.injEq] at hok
    rw [← hok.1]
  | num q =>
    simp only [dispatchMessage, Except.ok.injEq, Prod.mk.injEq] at hok
    rw [← hok.1]
  | arr xs =>
    simp only [dispatchMessage, Except.ok.injEq, Prod.mk.injEq] at hok
    rw [← hok.1]
  | obj fs =>
    simp only [dispatchMessage, Except.ok.injEq, Prod.mk.injEq] at hok
    rw [← hok.1]

/-! ## Uppercasing lemmas -/

theorem pyUpperChar_idem (c : Char) : pyUpperChar (pyUpperChar c) = pyUpperChar c := by
  unfold pyUpperChar
  by_cases h : 97 ≤ c.toNat ∧ c.toNat ≤ 122
  · have hv : (c.toNat - 32).isValidChar := Or.inl (by omega)
    have ht : (Char.ofNat (c.toNat - 32)).toNat = c.toNat - 32 := by
      rw [Char.ofNat, dif_pos hv]
      rfl
    have hne : ¬(97 ≤ (Char.ofNat (c.toNat - 32)).toNat ∧
        (Char.ofNat (c.toNat - 32)).toNat ≤ 122) := by
      rw [ht]
      omega
    rw [if_pos h, if_neg hne]
  · rw [if_neg h, if_neg h]

theorem map_pyUpperChar_idem (l : List Char) :
    (l.map pyUpperChar).map pyUpperChar = l.map pyUpperChar := by
  induction l with
  | nil => rfl
  | cons c cs ih => simp [pyUpperChar_idem, ih]

theorem pyUpper_idem (s : String) : pyUpper (pyUpper s) = pyUpper s := by
  unfold pyUpper
  exact congrArg String.mk (map_pyUpperChar_idem s.data)

/-! ## Claim theorems -/

/-- C2: feeding raw chunks one at a time through the frame decoder
(appending each chunk to the buffer and draining all complete
newline-terminated frames before the next chunk) yields exactly the same
non-empty (non-blank, per the decoder's strip test) frames, in the same
order, as decoding the whole concatenation in a single pass: the
complete newline-terminated segments of the concatenation with blank
frames discarded. The trailing partial frame left buffered also agrees
(chunk-boundary independence). -/
theorem frame_decoder_chunk_boundary_independence (chunks : List (List Char)) :
    feedChunks chunks = feedChunks [chunks.flatten] ∧
    (feedChunks chunks).yielded =
      (splitSegs chunks.flatten).1.filter (fun l => !(isBlankLine l)) ∧
    (feedChunks chunks).buffer = (splitSegs chunks.flatten).2 := by
  have hmain : feedChunks chunks = feedChunk { buffer := [], yielded := [] } chunks.flatten := by
    cases chunks with
    | nil => simp [feedChunks, feedChunk, splitSegs]
    | cons c cs => simpa [feedChunks] using foldl_feedChunk cs { buffer := [], yielded := [] } c
  have hone :
      feedChunks [chunks.flatten] = feedChunk { buffer := [], yielded := [] } chunks.flatten := by
    simp [feedChunks]
  refine ⟨by rw [hmain, hone], ?_, ?_⟩ <;> rw [hmain] <;> simp [feedChunk]

/-- C3: over any sequence of (well-shaped) performance_metrics messages,
the performance history ends up holding exactly the most recent 100
samples in arrival order (the drop of all but the last 100), its length
is min(n, 100), and after every prefix of the sequence the history holds
at most 100 samples. -/
theorem performance_history_bounded_fifo (inputs : List (Clock × List (String × JVal))) :
    (runMessages initialState
        (inputs.map (fun p => (p.1, perfFrame p.2)))).1.performance_history =
      (inputs.map (fun p => sampleFromFields p.1 p.2)).drop (inputs.length - 100) ∧
    (runMessages initialState
        (inputs.map (fun p => (p.1, perfFrame p.2)))).1.performance_history.length =
      min inputs.length 100 ∧
    ∀ k, (runMessages initialState
        ((inputs.take k).map (fun p => (p.1, perfFrame p.2)))).1.performance_history.length
      ≤ 100 := by
  have main : ∀ ins : List (Clock × List (String × JVal)),
      (runMessages initialState
          (ins.map (fun p => (p.1, perfFrame p.2)))).1.performance_history =
        (ins.map (fun p => sampleFromFields p.1 p.2)).drop (ins.length - 100) := by
    intro ins
    rw [runMessages_perf_history]
    show List.foldl pushSample [] _ = _
    rw [foldl_pushSample]
    simp
  refine ⟨main inputs, ?_, ?_⟩
  · rw [main inputs]
    simp only [List.length_drop, List.length_map]
    omega
  · intro k
    rw [main (inputs.take k)]
    simp only [List.length_drop, List.length_map]
    omega

/-- C1 counterexample: a log entry with level ERROR and no isError flag.
The claim as stated routes every non-isError, non-WARNING entry to the
info counter, but handle_log_entry increments the error counter here and
leaves the info counter unchanged (line 142 also tests the level against
ERROR). -/
theorem log_entry_error_level_counterexample :
    handle_log_entry
        (JVal.obj [(("level"), JVal.str ("ERROR")), (("message"), JVal.str ("disk full"))])
        (JVal.str ("12:00:00")) (JVal.str ("unknown")) initialState =
      Except.ok ({ initialState with error_count := 1 },
        [RenderEvent.logLine ("❌") (JVal.str ("12:00:00")) ("ERROR")
          (JVal.str ("disk full"))]) ∧
    ({ initialState with error_count := 1 } : ClientState).info_count ≠
      initialState.info_count + 1 :=
  ⟨rfl, by decide⟩

/-- C1 (amended): for every log entry whose level field is a string,
exactly one severity counter is incremented, chosen as follows: if the
isError value is truthy, the error counter, regardless of the level;
otherwise if the level upper-cases to ERROR, the error counter;
otherwise if the level upper-cases to WARNING, the warning counter;
otherwise the info counter. -/
theorem log_entry_severity_classification (lvl : String) (rest : List (String × JVal))
    (timeStr source : JVal) (st : ClientState) :
    (pyTruthy ((rest.lookup ("isError")).getD (JVal.bool false)) = true →
      handle_log_entry (logPayload lvl rest) timeStr source st =
        Except.ok ({ st with error_count := st.error_count + 1 },
          [RenderEvent.logLine ("❌") timeStr (pyUpper lvl)
            ((rest.lookup ("message")).getD (JVal.str ("")))])) ∧
    (pyTruthy ((rest.lookup ("isError")).getD (JVal.bool false)) = false →
      pyUpper lvl = ("ERROR") →
      handle_log_entry (logPayload lvl rest) timeStr source st =
        Except.ok ({ st with error_count := st.error_count + 1 },
          [RenderEvent.logLine ("❌") timeStr (pyUpper lvl)
            ((rest.lookup ("message")).getD (JVal.str ("")))])) ∧
    (pyTruthy ((rest.lookup ("isError")).getD (JVal.bool false)) = false →
      pyUpper lvl ≠ ("ERROR") → pyUpper lvl = ("WARNING") →
      handle_log_entry (logPayload lvl rest) timeStr source st =
        Except.ok ({ st with warning_count := st.warning_count + 1 },
          [RenderEvent.logLine ("⚠️") timeStr (pyUpper lvl)
            ((rest.lookup ("message")).getD (JVal.str ("")))])) ∧
    (pyTruthy ((rest.lookup ("isError")).getD (JVal.bool false)) = false →
      pyUpper lvl ≠ ("ERROR") → pyUpper lvl ≠ ("WARNING") →
      handle_log_entry (logPayload lvl rest) timeStr source st =
        Except.ok ({ st with info_count := st.info_count + 1 },
          [RenderEvent.logLine ("ℹ️") timeStr (pyUpper lvl)
            ((rest.lookup ("message")).getD (JVal.str ("")))])) := by
  refine ⟨?_, ?_, ?_, ?_⟩
  · intro he
    simp [handle_log_entry, logPayload, List.lookup, he]
  · intro he hu
    simp [handle_log_entry, logPayload, List.lookup, he, hu]
  · intro he hu hw
    simp [handle_log_entry, logPayload, List.lookup, he, hu, hw]
  · intro he hu hw
    simp [handle_log_entry, logPayload, List.lookup, he, hu, hw]

/-- Witness for C1: a lowercase warning-level log entry with no isError
flag increments exactly the warning counter. -/
theorem log_entry_severity_classification_witness :
    handle_log_entry (logPayload ("warning") []) (JVal.str ("t")) (JVal.str ("s"))
        initialState =
      Except.ok ({ initialState with warning_count := 1 },
        [RenderEvent.logLine ("⚠️") (JVal.str ("t")) ("WARNING") (JVal.str (""))]) :=
  (log_entry_severity_classification ("warning") [] (JVal.str ("t")) (JVal.str ("s"))
      initialState).2.2.1 (by decide) (by decide) (by decide)

/-- C9: severity classification is case-insensitive in the level field.
With isError absent or falsy, a level that upper-cases to ERROR
increments the error counter, one that upper-cases to WARNING increments
the warning counter, and the handler behaves on any level string exactly
as it does on its upper-cased form. -/
theorem log_level_case_insensitive (lvl : String) (rest : List (String × JVal))
    (timeStr source : JVal) (st : ClientState)
    (hne : pyTruthy ((rest.lookup ("isError")).getD (JVal.bool false)) = false) :
    (pyUpper lvl = ("ERROR") →
      handle_log_entry (logPayload lvl rest) timeStr source st =
        Except.ok ({ st with error_count := st.error_count + 1 },
          [RenderEvent.logLine ("❌") timeStr (pyUpper lvl)
            ((rest.lookup ("message")).getD (JVal.str ("")))])) ∧
    (pyUpper lvl = ("WARNING") →
      handle_log_entry (logPayload lvl rest) timeStr source st =
        Except.ok ({ st with warning_count := st.warning_count + 1 },
          [RenderEvent.logLine ("⚠️") timeStr (pyUpper lvl)
            ((rest.lookup ("message")).getD (JVal.str ("")))])) ∧
    handle_log_entry (logPayload lvl rest) timeStr source st =
      handle_log_entry (logPayload (pyUpper lvl) rest) timeStr source st := by
  refine ⟨?_, ?_, ?_⟩
  · intro hu
    simp [handle_log_entry, logPayload, List.lookup, hne, hu]
  · intro hw
    simp [handle_log_entry, logPayload, List.lookup, hne, hw]
  · have hid := pyUpper_idem lvl
    simp [handle_log_entry, logPayload, List.lookup, hid]

/-- Witness for C9: the lowercase level error is classified exactly like
ERROR, incrementing the error counter. -/
theorem log_level_case_insensitive_witness :
    handle_log_entry (logPayload ("error") []) (JVal.str ("t")) (JVal.str ("s"))
        initialState =
      Except.ok ({ initialState with error_count := 1 },
        [RenderEvent.logLine ("❌") (JVal.str ("t")) ("ERROR") (JVal.str (""))]) ∧
    handle_log_entry (logPayload ("error") []) (JVal.str ("t")) (JVal.str ("s"))
        initialState =
      handle_log_entry (logPayload ("ERROR") []) (JVal.str ("t")) (JVal.str ("s"))
        initialState := by
  obtain ⟨h1, _, h3⟩ := log_level_case_insensitive ("error") [] (JVal.str ("t"))
    (JVal.str ("s")) initialState (by decide)
  exact ⟨h1 (by decide), h3⟩

/-- C4: a frame whose text is not valid JSON leaves the whole client
state (all four counters and the performance history) unchanged, reports
a diagnostic carrying the first 100 characters of the offending text, is
handled by a total function (the JSONDecodeError never escapes
process_message), and processing of the remaining frames continues as if
the bad frame had not been there. -/
theorem invalid_frame_leaves_state_unchanged (clk : Clock) (st : ClientState) (raw : String)
    (rest : List (Clock × Frame)) :
    processMessage clk st { raw := raw, parsed := none } =
      (st, [RenderEvent.parseFailure (raw.take 100)]) ∧
    runMessages st ((clk, { raw := raw, parsed := none }) :: rest) =
      ((runMessages st rest).1,
       RenderEvent.parseFailure (raw.take 100) :: (runMessages st rest).2) := by
  refine ⟨rfl, ?_⟩
  show List.foldl stepClient (st, []) _ = _
  rw [List.foldl_cons]
  rw [show stepClient ((st, []) : ClientState × List RenderEvent)
        (clk, { raw := raw, parsed := none }) =
      (st, [RenderEvent.parseFailure (raw.take 100)]) from rfl]
  rw [foldl_stepClient_events rest st [RenderEvent.parseFailure (raw.take 100)]]
  rfl

/-- C5 counterexample: a welcome message with capabilities logs and
metrics does mutate a counter: the total message count is incremented by
process_message (line 86) for every successfully parsed message,
whatever its type. -/
theorem welcome_increments_total_counterexample :
    (processMessage { nowStr := ("12:00:00"), nowTime := 0 } initialState
        welcomeFrame).1.message_count = initialState.message_count + 1 ∧
    (processMessage { nowStr := ("12:00:00"), nowTime := 0 } initialState
        welcomeFrame).1.message_count ≠ initialState.message_count :=
  ⟨rfl, by decide⟩

/-- C5 (amended): the total message count is incremented for every
successfully parsed message of any type, and the severity counters
(error/warning/info) are mutated only when a log-entry or debug-message
is handled: processing any parsed message of another type, in particular
a welcome message, leaves all three unchanged. -/
theorem non_log_entry_preserves_severity_counters (clk : Clock) (st : ClientState)
    (raw : String) (m : JVal) :
    (processMessage clk st { raw := raw, parsed := some m }).1.message_count =
      st.message_count + 1 ∧
    (msgTag m ≠ some ("log_entry") → msgTag m ≠ some ("debug_message") →
      (processMessage clk st { raw := raw, parsed := some m }).1.error_count =
          st.error_count ∧
        (processMessage clk st { raw := raw, parsed := some m }).1.warning_count =
          st.warning_count ∧
        (processMessage clk st { raw := raw, parsed := some m }).1.info_count =
          st.info_count) := by
  constructor
  · cases m with
    | obj fields =>
      simp only [processMessage]
      split
      · rename_i r heq
        obtain ⟨st', evs⟩ := r
        exact dispatchMessage_message_count _ _ _ _ _ _ _ _ heq
      · rfl
    | null => rfl
    | bool b => rfl
    | num q => rfl
    | str s => rfl
    | arr xs => rfl
  · intro h1 h2
    cases m with
    | obj fields =>
      have hne1 : (fields.lookup (("type"))).getD (JVal.str ("unknown")) ≠
          JVal.str ("log_entry") := by
        intro he
        exact h1 (by simp [msgTag, he])
      have hne2 : (fields.lookup (("type"))).getD (JVal.str ("unknown")) ≠
          JVal.str ("debug_message") := by
        intro he
        exact h2 (by simp [msgTag, he])
      simp only [processMessage]
      split
      · rename_i r heq
        obtain ⟨st', evs⟩ := r
        have hsev := dispatchMessage_severity _ _ _ _ _ _ _ _ hne1 hne2 heq
        exact ⟨hsev.2.1, hsev.2.2.1, hsev.2.2.2⟩
      · exact ⟨rfl, rfl, rfl⟩
    | null => exact ⟨rfl, rfl, rfl⟩
    | bool b => exact ⟨rfl, rfl, rfl⟩
    | num q => exact ⟨rfl, rfl, rfl⟩
    | str s => exact ⟨rfl, rfl, rfl⟩
    | arr xs => exact ⟨rfl, rfl, rfl⟩

/-- Witness for C5: the welcome message with capabilities logs and
metrics leaves the severity counters untouched and bumps the total. -/
theorem non_log_entry_preserves_severity_counters_witness :
    (processMessage { nowStr := ("12:00:00"), nowTime := 0 } initialState
        welcomeFrame).1.error_count = initialState.error_count ∧
    (processMessage { nowStr := ("12:00:00"), nowTime := 0 } initialState
        welcomeFrame).1.warning_count = initialState.warning_count ∧
    (processMessage { nowStr := ("12:00:00"), nowTime := 0 } initialState
        welcomeFrame).1.info_count = initialState.info_count ∧
    (processMessage { nowStr := ("12:00:00"), nowTime := 0 } initialState
        welcomeFrame).1.message_count = initialState.message_count + 1 := by
  obtain ⟨hc, hs⟩ := non_log_entry_preserves_severity_counters
    { nowStr := ("12:00:00"), nowTime := 0 } initialState ("")
    (JVal.obj
      [(("type"), JVal.str ("welcome")),
       (("data"), JVal.obj
         [(("capabilities"), JVal.arr [JVal.str ("logs"), JVal.str ("metrics")])])])
  obtain ⟨he, hw, hi⟩ := hs (by decide) (by decide)
  exact ⟨he, hw, hi, hc⟩

set_option maxRecDepth 100000 in
/-- C6: processing the spec's four example frames from the initial state
ends with total decoded = 3, errors = 1, warnings = 0, info = 1, exactly
one performance sample with cpu 55.2 and memory 70.0 (disk and gpu
defaulting to 0), and exactly one decode-failure diagnostic, reported
for the truncated third line. -/
theorem example_session_final_state :
    (runMessages initialState exampleFrames).1 =
      { message_count := 3, error_count := 1, warning_count := 0, info_count := 1
        performance_history :=
          [{ timestamp := 0, cpu := JVal.num 55.2, memory := JVal.num 70.0
             disk := JVal.num 0, gpu := JVal.num 0 }] } ∧
    (runMessages initialState exampleFrames).2 =
      [RenderEvent.logLine ("❌") (JVal.str ("12:00:00")) ("ERROR") (JVal.str ("disk full")),
       RenderEvent.logLine ("ℹ️") (JVal.str ("12:00:00")) ("INFO") (JVal.str ("ok")),
       RenderEvent.parseFailure ("\x7b\"type\":\"log_entry\""),
       RenderEvent.perfGauge (JVal.str ("12:00:00")) (JVal.num 55.2) (JVal.num 70.0)
         (JVal.num 0) (JVal.num 0),
       RenderEvent.perfNet (JVal.str ("Unknown")) false false] :=
  ⟨rfl, rfl⟩

/-- C7: for every service-status payload, handle_service_status renders
exactly one status line, chosen by the strict priority installing over
uninstalling over installed (running/stopped) over not-installed,
appends an error line exactly when the last-error string is non-empty,
and mutates no state; in particular, when both is_installing and
is_installed hold, the status reflects installing. -/
theorem service_status_priority (installed running installing uninstalling : Bool)
    (lastErr progress : String) (timeStr : JVal) (st : ClientState) :
    handle_service_status (svcData installed running installing uninstalling lastErr progress)
        timeStr st =
      Except.ok (st,
        RenderEvent.serviceLine timeStr
            (claimedServiceStatus installing uninstalling installed running progress) ::
          (if lastErr = "" then [] else [RenderEvent.errorLine (JVal.str lastErr)])) ∧
    (installing = true → installed = true →
      claimedServiceStatus installing uninstalling installed running progress =
        (if progress = "" then ("🔄 Installing") else ("🔄 Installing - ") ++ progress)) := by
  constructor
  · by_cases hp : progress = "" <;> by_cases he : lastErr = "" <;>
      cases installed <;> cases running <;> cases installing <;> cases uninstalling <;>
      simp [handle_service_status, svcData, claimedServiceStatus, List.lookup, pyTruthy,
        pyStr, hp, he]
  · intro hi _hin
    simp [claimedServiceStatus, hi]

/-- Witness for C7: with is_installing and is_installed (and is_running)
simultaneously true, the rendered status is Installing, with no error
line for an empty last_error. -/
theorem service_status_priority_witness :
    handle_service_status (svcData true true true false ("") ("")) (JVal.str ("t"))
        initialState =
      Except.ok (initialState, [RenderEvent.serviceLine (JVal.str ("t")) ("🔄 Installing")]) ∧
    claimedServiceStatus true false true true ("") = ("🔄 Installing") := by
  obtain ⟨h1, h2⟩ := service_status_priority true true true false ("") ("") (JVal.str ("t"))
    initialState
  exact ⟨h1.trans (by rfl), (h2 rfl rfl).trans (by rfl)⟩

/-- C8: the displayed time of an envelope is computed as follows: a
non-empty timestamp string is parsed as an ISO-8601 instant after
replacing the Z UTC marker and rendered HH:MM:SS; if the parse fails the
raw string passes through unchanged; an absent timestamp is replaced by
the current local time. The pipeline renders exactly this value (shown
for the unknown-type line of an envelope with no type field). -/
theorem timestamp_normalization (s nowStr : String) (clk : Clock) (st : ClientState)
    (raw : String) (fields : List (String × JVal)) :
    (s ≠ "" →
      formatTimestamp (JVal.str s) nowStr =
        (match pyFromIso (pyReplaceZ s).data with
         | some dt => JVal.str (fmtHMS dt)
         | none => JVal.str s)) ∧
    formatTimestamp (JVal.str ("")) nowStr = JVal.str nowStr ∧
    (fields.lookup (("type")) = none →
      (processMessage clk st { raw := raw, parsed := some (JVal.obj fields) }).2 =
        [RenderEvent.unknownType
          (formatTimestamp ((fields.lookup (("timestamp"))).getD (JVal.str (""))) clk.nowStr)
          (JVal.str ("unknown"))]) := by
  refine ⟨?_, rfl, ?_⟩
  · intro hs
    simp [formatTimestamp, pyTruthy, hs]
  · intro htv
    simp only [processMessage, htv, Option.getD_none]
    rfl

/-- Witness for C8: a trailing-Z ISO timestamp renders as its HH:MM:SS;
the empty timestamp falls back to the current time; the pipeline shows
the parsed time. -/
theorem timestamp_normalization_witness :
    formatTimestamp (JVal.str ("2024-01-02T03:04:05Z")) ("09:00:00") =
      JVal.str ("03:04:05") ∧
    formatTimestamp (JVal.str ("")) ("09:00:00") = JVal.str ("09:00:00") ∧
    (processMessage { nowStr := ("09:00:00"), nowTime := 0 } initialState
        { raw := ("")
          parsed := some (JVal.obj
            [(("timestamp"), JVal.str ("2024-01-02T03:04:05Z"))]) }).2 =
      [RenderEvent.unknownType (JVal.str ("03:04:05")) (JVal.str ("unknown"))] := by
  obtain ⟨h1, h2, h3⟩ := timestamp_normalization ("2024-01-02T03:04:05Z") ("09:00:00")
    { nowStr := ("09:00:00"), nowTime := 0 } initialState ("")
    [(("timestamp"), JVal.str ("2024-01-02T03:04:05Z"))]
  exact ⟨(h1 (by decide)).trans (by rfl), h2, (h3 (by rfl)).trans (by rfl)⟩

/-- C10: a timestamp field holding the empty string is treated exactly
as an absent timestamp: the current local time is substituted (the empty
string is falsy at line 94, whose else branch uses datetime.now), and
processing the envelope is indistinguishable from processing the same
envelope without the field. -/
theorem empty_timestamp_treated_as_absent (nowStr : String) (clk : Clock) (st : ClientState)
    (raw : String) (fields : List (String × JVal))
    (h : fields.lookup (("timestamp")) = none) :
    formatTimestamp (JVal.str ("")) nowStr = JVal.str nowStr ∧
    processMessage clk st
        { raw := raw, parsed := some (JVal.obj ((("timestamp"), JVal.str ("")) :: fields)) } =
      processMessage clk st { raw := raw, parsed := some (JVal.obj fields) } := by
  refine ⟨rfl, ?_⟩
  simp [processMessage, List.lookup, h]

/-- Witness for C10: the envelope whose timestamp is the empty string is
processed exactly like the envelope with no timestamp field. -/
theorem empty_timestamp_treated_as_absent_witness :
    formatTimestamp (JVal.str ("")) ("12:00:00") = JVal.str ("12:00:00") ∧
    processMessage { nowStr := ("12:00:00"), nowTime := 0 } initialState
        { raw := (""), parsed := some (JVal.obj [(("timestamp"), JVal.str (""))]) } =
      processMessage { nowStr := ("12:00:00"), nowTime := 0 } initialState
        { raw := (""), parsed := some (JVal.obj []) } :=
  empty_timestamp_treated_as_absent ("12:00:00") { nowStr := ("12:00:00"), nowTime := 0 }
    initialState ("") [] rfl

end ExoMCP
